import Mathlib

/-!
Verification of the worldradio playback controller and station directory.

The definitions below are a shallow embedding of the TypeScript sources:

* `src/services/radioAPI.ts` — the station-directory client. Network fetches
  are modelled as oracle parameters (`Except String (List RadioStation)`);
  `Math.random()` draws are modelled as an oracle `rand : Nat → Nat`, reduced
  modulo the range the source computes with `Math.floor(Math.random() * n)`.
* `src/hooks/useRadioPlayer.ts` (the session-identifier revision of the hook,
  the one the spec treats as authoritative) — the playback lifecycle
  controller. The React refs and state become fields of a `Controller`
  record; each `async` callback of the audio element becomes a function of
  the captured session identifier and the controller state; pending
  `setTimeout` timers become `Option` fields (the armed loading timer keeps
  the session identifier its closure captured, the armed retry timer keeps
  its delay in milliseconds). `Date.now()` is an explicit `now : Nat`
  argument. JavaScript string tests (`startsWith`) are modelled on the
  character sequence of the strings.
-/

/-- Station value object (the fields the controller and the filter read).
Missing `url_resolved` is the empty string, which is falsy in the source's
use of the or-else idiom. -/
structure RadioStation where
  stationuuid : String
  name : String
  url : String
  url_resolved : String
  country : String
  tags : String
deriving DecidableEq, Repr

/-- Favorite entry persisted by the hook. -/
structure FavoriteStation where
  stationuuid : String
  name : String
  country : String
  tags : String
  url : String
  addedAt : String
deriving DecidableEq, Repr

/-- Observable player state of the hook. -/
structure PlayerState where
  isPlaying : Bool
  isLoading : Bool
  volume : ℚ
  currentStation : Option RadioStation
  error : Option String
deriving DecidableEq, Repr

/-- JS String.startsWith, modelled on the character sequence. -/
def strStartsWith (s pat : String) : Bool :=
  pat.data.isPrefixOf s.data

/-- upgradeToHttps from radioAPI.ts: replace the first occurrence of
the pattern, which under the startsWith guard is the leading scheme. -/
def upgradeToHttps (url : String) : String :=
  if strStartsWith url "http://" then String.mk ("https://".data ++ url.data.drop 7)
  else url

/-- isSecureUrl from radioAPI.ts. The page protocol test
window.location.protocol === "https:" is the parameter pageIsHttps. -/
def isSecureUrl (pageIsHttps : Bool) (url : String) : Bool :=
  if url = "" then false
  else if strStartsWith url "https://" then true
  else if pageIsHttps && strStartsWith url "http://" then false
  else true

/-- The primary stream URL, station.url_resolved or-else station.url. -/
def primaryUrl (s : RadioStation) : String :=
  if s.url_resolved = "" then s.url else s.url_resolved

/-- The map step of filterSecureStations: upgrade each http scheme in place. -/
def upgradeStation (s : RadioStation) : RadioStation :=
  let s1 := if strStartsWith s.url_resolved "http://" then
      { s with url_resolved := upgradeToHttps s.url_resolved } else s
  if strStartsWith s1.url "http://" then { s1 with url := upgradeToHttps s1.url } else s1

/-- filterSecureStations from radioAPI.ts: upgrade, then keep stations whose
primary URL passes isSecureUrl. -/
def filterSecureStations (pageIsHttps : Bool) (stations : List RadioStation) :
    List RadioStation :=
  (stations.map upgradeStation).filter (fun s => isSecureUrl pageIsHttps (primaryUrl s))

namespace RadioAPI

/-- DIVERSE_COUNTRIES from radioAPI.ts. -/
def DIVERSE_COUNTRIES : List String :=
  ["United States", "Germany", "United Kingdom", "France", "Italy", "Spain",
   "Netherlands", "Canada", "Australia", "Japan", "Brazil", "Mexico", "Poland",
   "Sweden", "Norway", "Portugal", "Greece", "Turkey", "South Africa",
   "Thailand", "Singapore", "Ireland", "Belgium", "Switzerland", "Austria",
   "Denmark", "Finland"]

/-- Swap two positions of a list; out-of-range indices leave it unchanged.
In the source both indices are always in range. -/
def listSwap {α : Type} (l : List α) (i j : Nat) : List α :=
  match l[i]?, l[j]? with
  | some x, some y => (l.set i y).set j x
  | _, _ => l

/-- The Fisher-Yates loop of shuffleArray: i runs downward, j is the draw
Math.floor(Math.random() * (i + 1)), modelled as rand i % (i + 1). -/
def shuffleGo {α : Type} (rand : Nat → Nat) : List α → Nat → List α
  | l, 0 => l
  | l, i + 1 => shuffleGo rand (listSwap l (i + 1) (rand (i + 1) % (i + 2))) i

/-- shuffleArray from radioAPI.ts, acting on a copy of the input. -/
def shuffleArray {α : Type} (rand : Nat → Nat) (array : List α) : List α :=
  shuffleGo rand array (array.length - 1)

/-- The fan-out and merge phase of getDiverseStations: shuffle the country
list, take 15 countries, fetch each country's stations (a failed sub-request
contributes the empty list: the per-country try/catch returns [], so every
promise fulfills and Promise.allSettled keeps them all; the batching in
groups of five only inserts delays and preserves order), then apply the
security filter. countryFetch is the oracle for getStationsByCountry. -/
def countryContribution (countryFetch : String → Nat → Except String (List RadioStation))
    (stationsPerCountry : Nat) (country : String) : List RadioStation :=
  match countryFetch country stationsPerCountry with
  | Except.ok stations => stations
  | Except.error _ => []

/-- The merge itself: shuffle the country list, take 15, gather every
country's contribution in order, filter. -/
def mergedSecureStations (count : Nat) (randCountries : Nat → Nat)
    (countryFetch : String → Nat → Except String (List RadioStation))
    (pageIsHttps : Bool) : List RadioStation :=
  let stationsPerCountry := max 2 (count / 15)
  let selectedCountries := (shuffleArray randCountries DIVERSE_COUNTRIES).take 15
  let allStations := selectedCountries.flatMap (countryContribution countryFetch stationsPerCountry)
  filterSecureStations pageIsHttps allStations

/-- getDiverseStations from radioAPI.ts. randomBackfill is the oracle for
getRandomStations; the source's test secureStations.length < count * 0.5
is the exact integer condition 2 * length < count. The final list is
shuffled and truncated to count. -/
def getDiverseStations (count : Nat) (randCountries randFinal : Nat → Nat)
    (countryFetch : String → Nat → Except String (List RadioStation))
    (randomBackfill : Nat → Except String (List RadioStation))
    (pageIsHttps : Bool) : List RadioStation :=
  let secureStations := mergedSecureStations count randCountries countryFetch pageIsHttps
  let filled :=
    if 2 * secureStations.length < count then
      match randomBackfill (count - secureStations.length) with
      | Except.ok randomStations => secureStations ++ randomStations
      | Except.error _ => secureStations
    else secureStations
  (shuffleArray randFinal filled).take count

end RadioAPI

/-- The tuning-effect generator (RadioStaticGenerator): its audio element's
current volume and whether the loop is playing. -/
structure StaticGenerator where
  elementVolume : ℚ
  isPlaying : Bool
deriving DecidableEq, Repr

/-- playStatic: a no-op while already playing, otherwise start the loop and
fade in to the requested volume (the fade's final value). -/
def playStatic (volume : ℚ) (g : StaticGenerator) : StaticGenerator :=
  if g.isPlaying then g else { elementVolume := volume, isPlaying := true }

/-- stopStatic: fade out, then pause and reset the element volume to 0. -/
def stopStatic (g : StaticGenerator) : StaticGenerator :=
  if g.isPlaying then { elementVolume := 0, isPlaying := false } else g

/-- RadioStaticGenerator.setVolume: adjust the element only while playing at
a positive volume. -/
def staticSetVolume (volume : ℚ) (g : StaticGenerator) : StaticGenerator :=
  if g.isPlaying && 0 < g.elementVolume then { g with elementVolume := volume } else g

/-- The live audio element owned by the controller. -/
structure AudioElement where
  src : String
  volume : ℚ
deriving DecidableEq, Repr

namespace Player

/-- maxRetries from useRadioPlayer.ts. -/
def maxRetries : Nat := 5

/-- debounceDelayMs from useRadioPlayer.ts. -/
def debounceDelayMs : Nat := 1000

/-- The terminal circuit-breaker error message. -/
def terminalErrorMessage : String :=
  "Unable to find working stations. Please check your internet connection and try again."

/-- The mutable state of one useRadioPlayer instance: the React state plus
the refs. loadingTimeout (loadingTimeoutRef) records the armed loading timer
together with the session identifier its closure captured; retryDelay
(retryDelayRef) records the armed automatic-retry timer with its delay in
milliseconds; none means no timer is pending. -/
structure Controller where
  playerState : PlayerState
  favorites : List FavoriteStation
  stationPool : List RadioStation
  retryCount : Nat
  retryDelay : Option Nat
  loadingTimeout : Option String
  currentStationId : String
  lastShuffleTime : Nat
  isManualShuffle : Bool
  audio : Option AudioElement
  staticGen : StaticGenerator
deriving DecidableEq, Repr

/-- The controller state right after mount: the initial useState values and
refs, with the static generator initialized silent. -/
def initialController : Controller where
  playerState :=
    { isPlaying := false, isLoading := false, volume := 7/10,
      currentStation := none, error := none }
  favorites := []
  stationPool := []
  retryCount := 0
  retryDelay := none
  loadingTimeout := none
  currentStationId := ""
  lastShuffleTime := 0
  isManualShuffle := false
  audio := none
  staticGen := { elementVolume := 0, isPlaying := false }

/-- The session identifier playStation allocates:
Template of stationuuid, a dash and Date.now(). -/
def mkSessionId (station : RadioStation) (now : Nat) : String :=
  station.stationuuid ++ "-" ++ toString now

/-- handleStationFailure from useRadioPlayer.ts: discard the event if its
captured session identifier is stale; surface the error and stop if the
session is a manual shuffle; otherwise stop the static, bump the retry
counter, and either trip the circuit breaker at maxRetries or post a
transient error and arm a linear-backoff retry timer. -/
def handleStationFailure (message stationId : String) (c : Controller) : Controller :=
  if stationId ≠ c.currentStationId then c
  else if c.isManualShuffle then
    { c with playerState := { c.playerState with isLoading := false, error := some message } }
  else
    let c1 := { c with staticGen := stopStatic c.staticGen }
    let newCount := c1.retryCount + 1
    if maxRetries ≤ newCount then
      { c1 with
        retryCount := 0
        playerState := { c1.playerState with
          isLoading := false, isPlaying := false, error := some terminalErrorMessage } }
    else
      { c1 with
        retryCount := newCount
        playerState := { c1.playerState with
          isLoading := false
          error := some (message ++ " (" ++ toString newCount ++ "/" ++
            toString maxRetries ++ ")") }
        retryDelay := some (newCount * 2000) }

/-- playStation from useRadioPlayer.ts, up to the point where the load is in
flight: allocate a fresh session identifier, cancel and tear down the old
audio (cleanupAudio clears both timers and drops the element with its
listeners), stop the static, create a fresh element, publish the loading
state, arm the 10-second loading timer capturing the new session identifier,
and point the element at the station's primary URL at the current volume.
The load/play outcome arrives later as an AudioEvent. -/
def playStation (station : RadioStation) (now : Nat) (c : Controller) : Controller :=
  let sid := mkSessionId station now
  let vol := c.playerState.volume
  { c with
    currentStationId := sid
    retryDelay := none
    loadingTimeout := some sid
    staticGen := stopStatic c.staticGen
    audio := some { src := primaryUrl station, volume := vol }
    playerState := { c.playerState with
      isLoading := true, error := none, currentStation := some station } }

/-- The asynchronous completions a playStation call can receive: the audio
element's canplay, play, pause and error events, the 10-second loading
timer, and a rejection of the play() promise. Each carries the message the
source's closure would build. -/
inductive AudioEvent where
  | canplay : AudioEvent
  | play : AudioEvent
  | pause : AudioEvent
  | error : String → AudioEvent
  | loadTimeout : String → AudioEvent
  | playRejected : String → AudioEvent
deriving DecidableEq, Repr

/-- Run the callback a playStation call registered for an event, with the
session identifier the closure captured. Every callback first compares the
captured identifier with the controller's current one and returns early on
mismatch; the loading-timer callback delegates that guard to
handleStationFailure. -/
def dispatchEvent (stationId : String) (e : AudioEvent) (c : Controller) : Controller :=
  match e with
  | AudioEvent.canplay =>
    if stationId ≠ c.currentStationId then c
    else
      { c with
        loadingTimeout := none, retryCount := 0, isManualShuffle := false
        playerState := { c.playerState with isLoading := false } }
  | AudioEvent.play =>
    if stationId ≠ c.currentStationId then c
    else
      { c with
        loadingTimeout := none, retryCount := 0, isManualShuffle := false
        playerState := { c.playerState with isPlaying := true, isLoading := false } }
  | AudioEvent.pause =>
    if stationId ≠ c.currentStationId then c
    else { c with playerState := { c.playerState with isPlaying := false } }
  | AudioEvent.error message =>
    if stationId ≠ c.currentStationId then c
    else handleStationFailure message stationId { c with loadingTimeout := none }
  | AudioEvent.loadTimeout message => handleStationFailure message stationId c
  | AudioEvent.playRejected message =>
    if stationId ≠ c.currentStationId then c
    else handleStationFailure message stationId { c with loadingTimeout := none }

/-- shuffleStationWithRetry from useRadioPlayer.ts: play the tuning static
when a station is already set, then pick a uniformly random station from the
pool and play it. The stationPool binding is captured at entry, so when it
is empty the invocation stores the freshly fetched pool (freshPool, the
loadStationPool oracle) for later renders but still reports that no station
is available. pick is the Math.random() oracle for the index draw. -/
def shuffleStationWithRetry (pick : Nat) (now : Nat) (freshPool : List RadioStation)
    (c : Controller) : Controller :=
  let c1 :=
    if c.playerState.currentStation.isSome then
      { c with staticGen := playStatic (c.playerState.volume * (2/5)) c.staticGen }
    else c
  match c.stationPool with
  | [] =>
    let c2 := { c1 with stationPool := freshPool }
    handleStationFailure "No stations available"
      (if c2.currentStationId = "" then "no-stations" else c2.currentStationId) c2
  | s :: _ =>
    playStation (c.stationPool.getD (pick % c.stationPool.length) s) now c1

/-- shuffleStation from useRadioPlayer.ts: drop the call inside the
1000-millisecond debounce window, otherwise record the call time, flag the
attempt as manual, reset the retry counter, cancel any pending retry timer
and run shuffleStationWithRetry. -/
def shuffleStation (pick : Nat) (now : Nat) (freshPool : List RadioStation)
    (c : Controller) : Controller :=
  if now - c.lastShuffleTime < debounceDelayMs then c
  else
    let c1 := { c with
      lastShuffleTime := now, isManualShuffle := true, retryCount := 0,
      retryDelay := none }
    shuffleStationWithRetry pick now freshPool c1

/-- The 2000-millisecond timer shuffleStation arms after its attempt: it
clears the manual flag so automatic retries resume. -/
def manualShuffleFlagTimeout (c : Controller) : Controller :=
  { c with isManualShuffle := false }

/-- setVolume from useRadioPlayer.ts: apply the volume to the live audio
element if one exists, pass 30 percent of it to the static generator, and
store it in the player state unconditionally. -/
def setVolume (volume : ℚ) (c : Controller) : Controller :=
  { c with
    audio := c.audio.map (fun a => { a with volume := volume })
    staticGen := staticSetVolume (volume * (3/10)) c.staticGen
    playerState := { c.playerState with volume := volume } }

/-- addToFavorites from useRadioPlayer.ts, on the favorites list: append the
favorite built from the station with the current timestamp. -/
def addToFavorites (station : RadioStation) (addedAt : String)
    (favorites : List FavoriteStation) : List FavoriteStation :=
  favorites ++
    [{ stationuuid := station.stationuuid, name := station.name,
       country := station.country, tags := station.tags, url := station.url,
       addedAt := addedAt }]

/-- removeFromFavorites from useRadioPlayer.ts: keep the favorites whose
identifier differs. -/
def removeFromFavorites (stationuuid : String)
    (favorites : List FavoriteStation) : List FavoriteStation :=
  favorites.filter (fun fav => fav.stationuuid ≠ stationuuid)

/-- isFavorite from useRadioPlayer.ts. -/
def isFavorite (stationuuid : String) (favorites : List FavoriteStation) : Bool :=
  favorites.any (fun fav => fav.stationuuid = stationuuid)

end Player

/-- A sample station with a secure stream URL, used to instantiate theorems. -/
def stationA : RadioStation :=
  { stationuuid := "aaa", name := "Alpha FM", url := "https://a.example/stream",
    url_resolved := "", country := "Utopia", tags := "pop" }

/-- A second sample station, distinct from stationA. -/
def stationB : RadioStation :=
  { stationuuid := "bbb", name := "Beta FM", url := "https://b.example/stream",
    url_resolved := "", country := "Arcadia", tags := "rock" }

/-- A sample station whose stream URL uses the insecure scheme. -/
def httpStation : RadioStation :=
  { stationuuid := "h1", name := "Plain FM", url := "http://radio.example/live",
    url_resolved := "", country := "Utopia", tags := "" }

/-- A controller in the middle of a manual shuffle attempt. -/
def manualController : Player.Controller :=
  { Player.initialController with isManualShuffle := true, currentStationId := "aaa-1" }

/-- A controller one automatic failure away from the retry bound. -/
def breakerController : Player.Controller :=
  { Player.initialController with retryCount := 4, currentStationId := "aaa-1" }

/-- A controller with no failures recorded yet for an automatic session. -/
def backoffController : Player.Controller :=
  { Player.initialController with currentStationId := "aaa-1" }

/-- A country-fetch oracle whose every sub-request succeeds with no stations. -/
def cfOk : String → Nat → Except String (List RadioStation) :=
  fun _ _ => Except.ok []

/-- A country-fetch oracle whose Germany sub-request fails. -/
def cfErr : String → Nat → Except String (List RadioStation) :=
  fun country _ => if country = "Germany" then Except.error "down" else Except.ok []

/-- A random-stations oracle returning one secure station. -/
def rbOne : Nat → Except String (List RadioStation) :=
  fun _ => Except.ok [stationA]

/-! Helper lemmas shared by the claim theorems. -/

theorem cons_set_perm {α : Type} (a y : α) :
    ∀ (t : List α) (m : Nat), t[m]? = some y → List.Perm (y :: t.set m a) (a :: t) := by
  intro t
  induction t with
  | nil => intro m h; simp at h
  | cons b t' ih =>
    intro m h
    cases m with
    | zero =>
      simp at h
      subst h
      exact List.Perm.swap a b t'
    | succ k =>
      simp at h
      have step1 : List.Perm (y :: b :: t'.set k a) (b :: y :: t'.set k a) :=
        List.Perm.swap b y (t'.set k a)
      have step2 : List.Perm (b :: y :: t'.set k a) (b :: a :: t') :=
        List.Perm.cons b (ih k h)
      have step3 : List.Perm (b :: a :: t') (a :: b :: t') := List.Perm.swap a b t'
      simpa using (step1.trans step2).trans step3

theorem set_set_perm {α : Type} :
    ∀ (l : List α) (i j : Nat) (x y : α),
      l[i]? = some x → l[j]? = some y → List.Perm ((l.set i y).set j x) l := by
  intro l
  induction l with
  | nil => intro i j x y h1 _; simp at h1
  | cons a t ih =>
    intro i j x y h1 h2
    cases i with
    | zero =>
      simp at h1
      subst h1
      cases j with
      | zero =>
        simp at h2
        subst h2
        simp
      | succ k =>
        simp at h2
        simpa using cons_set_perm a y t k h2
    | succ m =>
      simp at h1
      cases j with
      | zero =>
        simp at h2
        subst h2
        simpa using cons_set_perm a x t m h1
      | succ k =>
        simp at h2
        simpa using List.Perm.cons a (ih m k x y h1 h2)

theorem listSwap_perm {α : Type} (l : List α) (i j : Nat) :
    List.Perm (RadioAPI.listSwap l i j) l := by
  cases h1 : l[i]? with
  | none => simp [RadioAPI.listSwap, h1]
  | some x =>
    cases h2 : l[j]? with
    | none => simp [RadioAPI.listSwap, h1, h2]
    | some y =>
      simpa [RadioAPI.listSwap, h1, h2] using set_set_perm l i j x y h1 h2

theorem shuffleGo_perm {α : Type} (rand : Nat → Nat) :
    ∀ (n : Nat) (l : List α), List.Perm (RadioAPI.shuffleGo rand l n) l
  | 0, l => List.Perm.refl l
  | n + 1, l =>
    (shuffleGo_perm rand n (RadioAPI.listSwap l (n + 1) (rand (n + 1) % (n + 2)))).trans
      (listSwap_perm l (n + 1) (rand (n + 1) % (n + 2)))

/-- C10: shuffleArray returns a permutation of its input: exactly the same
elements with the same multiplicities, in particular the same length. The
source copies the input before swapping, so the input array itself is left
unmodified, which in this pure embedding is intrinsic. -/
theorem shuffleArray_perm {α : Type} (rand : Nat → Nat) (array : List α) :
    List.Perm (RadioAPI.shuffleArray rand array) array ∧
    (RadioAPI.shuffleArray rand array).length = array.length := by
  have h := shuffleGo_perm rand (array.length - 1) array
  exact ⟨h, h.length_eq⟩

/-- C9: favorites round-trip. Adding a station makes it a favorite; removing
an identifier makes isFavorite false for it while every favorite with a
different identifier survives; removing an identifier that is not present
leaves the list equal to itself. -/
theorem favorites_roundtrip (s : RadioStation) (addedAt uuid : String)
    (favorites : List FavoriteStation) :
    Player.isFavorite s.stationuuid (Player.addToFavorites s addedAt favorites) = true ∧
    Player.isFavorite uuid (Player.removeFromFavorites uuid favorites) = false ∧
    (∀ fav ∈ favorites, fav.stationuuid ≠ uuid →
      fav ∈ Player.removeFromFavorites uuid favorites) ∧
    (Player.isFavorite uuid favorites = false →
      Player.removeFromFavorites uuid favorites = favorites) := by
  refine ⟨?_, ?_, ?_, ?_⟩
  · simp [Player.isFavorite, Player.addToFavorites]
  · simp [Player.isFavorite, Player.removeFromFavorites, List.any_eq_true,
      List.mem_filter]
  · intro fav hmem hne
    exact List.mem_filter.mpr ⟨hmem, by simp [hne]⟩
  · intro h
    simp only [Player.isFavorite, List.any_eq_false, decide_eq_true_eq] at h
    refine List.filter_eq_self.mpr ?_
    intro fav hmem
    simpa using h fav hmem

/-- C9 witness: a concrete round trip through add, remove and the queries. -/
theorem favorites_roundtrip_witness :
    Player.isFavorite stationA.stationuuid
      (Player.addToFavorites stationA "2024-01-01" []) = true ∧
    Player.isFavorite "zzz" (Player.removeFromFavorites "zzz"
      (Player.addToFavorites stationA "2024-01-01" [])) = false ∧
    Player.isFavorite "zzz" (Player.addToFavorites stationA "2024-01-01" []) = false ∧
    Player.removeFromFavorites "zzz" (Player.addToFavorites stationA "2024-01-01" []) =
      Player.addToFavorites stationA "2024-01-01" [] := by
  have h := favorites_roundtrip stationA "2024-01-01" "zzz"
    (Player.addToFavorites stationA "2024-01-01" [])
  exact ⟨(favorites_roundtrip stationA "2024-01-01" "zzz" []).1, h.2.1, by decide,
    h.2.2.2 (by decide)⟩

/-- C8: every station surviving filterSecureStations has a secure primary
stream URL, and is the upgraded image of an input station (insecure schemes
are first upgraded); no station with an insecure primary URL is in the
output. -/
theorem filterSecureStations_secure (pageIsHttps : Bool)
    (stations : List RadioStation) (s : RadioStation)
    (hs : s ∈ filterSecureStations pageIsHttps stations) :
    isSecureUrl pageIsHttps (primaryUrl s) = true ∧
    ∃ s0 ∈ stations, s = upgradeStation s0 := by
  rcases List.mem_filter.mp hs with ⟨hmem, hsec⟩
  rcases List.mem_map.mp hmem with ⟨s0, hs0, rfl⟩
  exact ⟨by simpa using hsec, s0, hs0, rfl⟩

/-- C8 witness: an insecure-scheme station is upgraded and kept, and the
kept station's primary URL is secure. -/
theorem filterSecureStations_secure_witness :
    upgradeStation httpStation ∈ filterSecureStations true [httpStation] ∧
    isSecureUrl true (primaryUrl (upgradeStation httpStation)) = true :=
  ⟨by decide,
    (filterSecureStations_secure true [httpStation] (upgradeStation httpStation)
      (by decide)).1⟩

/-- C5: setVolume stores the requested volume in the player state
unconditionally, leaves the other player-state fields unchanged, applies the
volume to the live audio element when one exists, and passes 30 percent of
it to the tuning effect; as a total function it cannot throw. -/
theorem setVolume_propagation (v : ℚ) (c : Player.Controller)
    (h0 : 0 ≤ v) (h1 : v ≤ 1) :
    (Player.setVolume v c).playerState.volume = v ∧
    (Player.setVolume v c).playerState.isPlaying = c.playerState.isPlaying ∧
    (Player.setVolume v c).playerState.isLoading = c.playerState.isLoading ∧
    (Player.setVolume v c).playerState.currentStation = c.playerState.currentStation ∧
    (Player.setVolume v c).playerState.error = c.playerState.error ∧
    (Player.setVolume v c).audio = c.audio.map (fun a => { a with volume := v }) ∧
    (Player.setVolume v c).staticGen = staticSetVolume (v * (3/10)) c.staticGen :=
  ⟨rfl, rfl, rfl, rfl, rfl, rfl, rfl⟩

/-- C5 witness: setVolume to one half on the freshly mounted controller,
which has no current station and no audio element. -/
theorem setVolume_propagation_witness :
    (0 : ℚ) ≤ 1/2 ∧ (1 : ℚ)/2 ≤ 1 ∧
    Player.initialController.playerState.currentStation = none ∧
    (Player.setVolume (1/2) Player.initialController).playerState.volume = 1/2 :=
  ⟨by norm_num, by norm_num, rfl,
    (setVolume_propagation (1/2) Player.initialController (by norm_num)
      (by norm_num)).1⟩

/-- C3: a failure event of the current session while the manual-shuffle flag
is set only surfaces the error and clears the loading flag; retry counter,
retry timer and everything else are untouched, so no automatic retry is
scheduled. -/
theorem manual_override (c : Player.Controller) (message : String)
    (hman : c.isManualShuffle = true) :
    Player.handleStationFailure message c.currentStationId c =
      { c with playerState :=
        { c.playerState with isLoading := false, error := some message } } := by
  simp [Player.handleStationFailure, hman]

/-- C3 witness: a failure during a manual attempt on a concrete controller. -/
theorem manual_override_witness :
    manualController.isManualShuffle = true ∧
    Player.handleStationFailure "boom" manualController.currentStationId
        manualController =
      { manualController with playerState :=
        { manualController.playerState with isLoading := false, error := some "boom" } } :=
  ⟨rfl, manual_override manualController "boom" rfl⟩

/-- C2: when an automatic failure of the current session pushes the retry
counter to maxRetries, the controller posts the terminal error, stops
playing and loading, resets the counter to zero, and arms no further
automatic retry timer (the retry-timer field is left exactly as it was). -/
theorem retry_circuit_breaker (c : Player.Controller) (message : String)
    (hman : c.isManualShuffle = false)
    (hcount : Player.maxRetries ≤ c.retryCount + 1) :
    (Player.handleStationFailure message c.currentStationId c).playerState.error =
      some Player.terminalErrorMessage ∧
    (Player.handleStationFailure message c.currentStationId c).playerState.isPlaying = false ∧
    (Player.handleStationFailure message c.currentStationId c).playerState.isLoading = false ∧
    (Player.handleStationFailure message c.currentStationId c).retryCount = 0 ∧
    (Player.handleStationFailure message c.currentStationId c).retryDelay = c.retryDelay := by
  simp [Player.handleStationFailure, hman, hcount]

/-- C2 witness: the fifth consecutive automatic failure on a concrete
controller trips the circuit breaker. -/
theorem retry_circuit_breaker_witness :
    breakerController.isManualShuffle = false ∧
    Player.maxRetries ≤ breakerController.retryCount + 1 ∧
    (Player.handleStationFailure "boom" breakerController.currentStationId
      breakerController).playerState.error = some Player.terminalErrorMessage ∧
    (Player.handleStationFailure "boom" breakerController.currentStationId
      breakerController).retryDelay = none :=
  ⟨rfl, by decide,
    (retry_circuit_breaker breakerController "boom" rfl (by decide)).1,
    (retry_circuit_breaker breakerController "boom" rfl (by decide)).2.2.2.2⟩

/-- C6: an automatic failure of the current session below the retry bound
increments the counter to newCount, posts the transient error annotated
with newCount over maxRetries, clears the loading flag, and arms the retry
timer with delay newCount times 2000 milliseconds, linear in the count. -/
theorem linear_backoff (c : Player.Controller) (message : String)
    (hman : c.isManualShuffle = false)
    (hcount : c.retryCount + 1 < Player.maxRetries) :
    (Player.handleStationFailure message c.currentStationId c).retryCount =
      c.retryCount + 1 ∧
    (Player.handleStationFailure message c.currentStationId c).playerState.error =
      some (message ++ " (" ++ toString (c.retryCount + 1) ++ "/" ++
        toString Player.maxRetries ++ ")") ∧
    (Player.handleStationFailure message c.currentStationId c).playerState.isLoading =
      false ∧
    (Player.handleStationFailure message c.currentStationId c).retryDelay =
      some ((c.retryCount + 1) * 2000) := by
  simp [Player.handleStationFailure, hman, Nat.not_le.mpr hcount]

/-- C6 witness: the first automatic failure posts attempt one of five and a
2000-millisecond retry delay. -/
theorem linear_backoff_witness :
    backoffController.isManualShuffle = false ∧
    backoffController.retryCount + 1 < Player.maxRetries ∧
    (Player.handleStationFailure "boom" backoffController.currentStationId
      backoffController).playerState.error = some "boom (1/5)" ∧
    (Player.handleStationFailure "boom" backoffController.currentStationId
      backoffController).retryDelay = some 2000 :=
  ⟨rfl, by decide,
    (linear_backoff backoffController "boom" rfl (by decide)).2.1,
    (linear_backoff backoffController "boom" rfl (by decide)).2.2.2⟩

theorem playStation_currentStationId (station : RadioStation) (now : Nat)
    (c : Player.Controller) :
    (Player.playStation station now c).currentStationId =
      Player.mkSessionId station now := rfl

/-- C1: session supersession. After play of station a is superseded by play
of station b, every late event still carrying a's session identifier is
discarded without mutating any state, because each callback first compares
its captured identifier with the controller's current one; in particular
currentStation stays b. -/
theorem session_supersession (c : Player.Controller) (a b : RadioStation)
    (t1 t2 : Nat) (e : Player.AudioEvent)
    (hne : Player.mkSessionId a t1 ≠ Player.mkSessionId b t2) :
    Player.dispatchEvent (Player.mkSessionId a t1) e
        (Player.playStation b t2 (Player.playStation a t1 c)) =
      Player.playStation b t2 (Player.playStation a t1 c) ∧
    (Player.playStation b t2 (Player.playStation a t1 c)).playerState.currentStation =
      some b := by
  constructor
  · have hid : (Player.playStation b t2 (Player.playStation a t1 c)).currentStationId =
        Player.mkSessionId b t2 := rfl
    cases e <;>
      simp [Player.dispatchEvent, Player.handleStationFailure, hid, hne]
  · rfl

/-- C1 witness: a late error event of the superseded session is a no-op. -/
theorem session_supersession_witness :
    Player.mkSessionId stationA 100 ≠ Player.mkSessionId stationB 200 ∧
    Player.dispatchEvent (Player.mkSessionId stationA 100)
        (Player.AudioEvent.error "late failure")
        (Player.playStation stationB 200
          (Player.playStation stationA 100 Player.initialController)) =
      Player.playStation stationB 200
        (Player.playStation stationA 100 Player.initialController) ∧
    (Player.playStation stationB 200
      (Player.playStation stationA 100
        Player.initialController)).playerState.currentStation = some stationB :=
  ⟨by decide,
    (session_supersession Player.initialController stationA stationB 100 200
      (Player.AudioEvent.error "late failure") (by decide)).1,
    (session_supersession Player.initialController stationA stationB 100 200
      (Player.AudioEvent.error "late failure") (by decide)).2⟩

theorem handleStationFailure_lastShuffleTime (message stationId : String)
    (c : Player.Controller) :
    (Player.handleStationFailure message stationId c).lastShuffleTime =
      c.lastShuffleTime := by
  simp only [Player.handleStationFailure]
  split
  · rfl
  · split
    · rfl
    · split <;> rfl

theorem shuffleStationWithRetry_lastShuffleTime (pick now : Nat)
    (freshPool : List RadioStation) (c : Player.Controller) :
    (Player.shuffleStationWithRetry pick now freshPool c).lastShuffleTime =
      c.lastShuffleTime := by
  simp only [Player.shuffleStationWithRetry]
  rcases hp : c.stationPool with _ | ⟨s, rest⟩ <;> simp only [hp]
  · rw [handleStationFailure_lastShuffleTime]
    split <;> rfl
  · simp only [Player.playStation]
    split <;> rfl

theorem shuffleStation_lastShuffleTime (pick t : Nat)
    (freshPool : List RadioStation) (c : Player.Controller)
    (h : ¬ (t - c.lastShuffleTime < Player.debounceDelayMs)) :
    (Player.shuffleStation pick t freshPool c).lastShuffleTime = t := by
  simp only [Player.shuffleStation, if_neg h, shuffleStationWithRetry_lastShuffleTime]

/-- C4: debounce. When a first shuffle call is outside the debounce window
and a second one follows within the window, the second call returns the
controller unchanged, so the pair performs exactly the work (and creates
exactly the session) of the first call alone. -/
theorem shuffle_debounce (c : Player.Controller) (pick1 pick2 t1 t2 : Nat)
    (fresh1 fresh2 : List RadioStation)
    (h1 : Player.debounceDelayMs ≤ t1 - c.lastShuffleTime)
    (h2 : t2 - t1 < Player.debounceDelayMs) :
    Player.shuffleStation pick2 t2 fresh2 (Player.shuffleStation pick1 t1 fresh1 c) =
      Player.shuffleStation pick1 t1 fresh1 c := by
  have hlast := shuffleStation_lastShuffleTime pick1 t1 fresh1 c (Nat.not_lt.mpr h1)
  generalize hX : Player.shuffleStation pick1 t1 fresh1 c = X at hlast ⊢
  simp only [Player.shuffleStation, hlast, h2, if_true]

/-- C4 witness: two concrete shuffle calls 500 milliseconds apart; the
second is dropped. -/
theorem shuffle_debounce_witness :
    Player.debounceDelayMs ≤ 5000 - Player.initialController.lastShuffleTime ∧
    5500 - 5000 < Player.debounceDelayMs ∧
    Player.shuffleStation 0 5500 [stationB]
        (Player.shuffleStation 0 5000 [stationA] Player.initialController) =
      Player.shuffleStation 0 5000 [stationA] Player.initialController :=
  ⟨by decide, by decide,
    shuffle_debounce Player.initialController 0 0 5000 5500 [stationA] [stationB]
      (by decide) (by decide)⟩

/-- C7: getDiverseStations returns at most count stations; a per-country
sub-request failure contributes exactly an empty list, so the aggregate
result is the same as if that country had succeeded with no stations; and
when the merged secure pool is under-filled the result is the backfilled
pool, shuffled and truncated to count. -/
theorem getDiverseStations_spec :
    (∀ (count : Nat) (rC rF : Nat → Nat)
      (cf : String → Nat → Except String (List RadioStation))
      (rb : Nat → Except String (List RadioStation)) (page : Bool),
      (RadioAPI.getDiverseStations count rC rF cf rb page).length ≤ count) ∧
    (∀ (count : Nat) (rC rF : Nat → Nat)
      (cf1 cf2 : String → Nat → Except String (List RadioStation))
      (rb : Nat → Except String (List RadioStation)) (page : Bool) (c0 : String),
      (∀ country n, country ≠ c0 → cf1 country n = cf2 country n) →
      (∀ n, ∃ e, cf1 c0 n = Except.error e) →
      (∀ n, cf2 c0 n = Except.ok []) →
      RadioAPI.getDiverseStations count rC rF cf1 rb page =
        RadioAPI.getDiverseStations count rC rF cf2 rb page) ∧
    (∀ (count : Nat) (rC rF : Nat → Nat)
      (cf : String → Nat → Except String (List RadioStation))
      (rb : Nat → Except String (List RadioStation)) (page : Bool)
      (r : List RadioStation),
      2 * (RadioAPI.mergedSecureStations count rC cf page).length < count →
      rb (count - (RadioAPI.mergedSecureStations count rC cf page).length) =
        Except.ok r →
      RadioAPI.getDiverseStations count rC rF cf rb page =
        (RadioAPI.shuffleArray rF
          (RadioAPI.mergedSecureStations count rC cf page ++ r)).take count) := by
  refine ⟨?_, ?_, ?_⟩
  · intro count rC rF cf rb page
    exact List.length_take_le count _
  · intro count rC rF cf1 cf2 rb page c0 hagree herr hok
    have hfun : RadioAPI.countryContribution cf1 (max 2 (count / 15)) =
        RadioAPI.countryContribution cf2 (max 2 (count / 15)) := by
      funext country
      by_cases hc : country = c0
      · subst hc
        rcases herr (max 2 (count / 15)) with ⟨e, he⟩
        simp [RadioAPI.countryContribution, he, hok (max 2 (count / 15))]
      · simp [RadioAPI.countryContribution, hagree country (max 2 (count / 15)) hc]
    have hm : RadioAPI.mergedSecureStations count rC cf1 page =
        RadioAPI.mergedSecureStations count rC cf2 page := by
      simp only [RadioAPI.mergedSecureStations, hfun]
    simp only [RadioAPI.getDiverseStations, hm]
  · intro count rC rF cf rb page r hlen hrb
    simp only [RadioAPI.getDiverseStations, if_pos hlen, hrb]

set_option maxRecDepth 8000 in
/-- C7 witness: with a four-station request, a failing Germany sub-request,
an otherwise empty directory and a one-station random backfill, the bound,
the partial-success equality and the backfill equation all hold. -/
theorem getDiverseStations_spec_witness :
    (RadioAPI.getDiverseStations 4 id id cfErr rbOne true).length ≤ 4 ∧
    RadioAPI.getDiverseStations 4 id id cfErr rbOne true =
      RadioAPI.getDiverseStations 4 id id cfOk rbOne true ∧
    RadioAPI.getDiverseStations 4 id id cfOk rbOne true =
      (RadioAPI.shuffleArray id
        (RadioAPI.mergedSecureStations 4 id cfOk true ++ [stationA])).take 4 :=
  ⟨getDiverseStations_spec.1 4 id id cfErr rbOne true,
    getDiverseStations_spec.2.1 4 id id cfErr cfOk rbOne true "Germany"
      (by intro country n hc; simp [cfErr, cfOk, hc])
      (by intro n; exact ⟨"down", by simp [cfErr]⟩)
      (by intro n; simp [cfOk]),
    getDiverseStations_spec.2.2 4 id id cfOk rbOne true [stationA]
      (by
        have hmerged : RadioAPI.mergedSecureStations 4 id cfOk true =
            ([] : List RadioStation) := rfl
        rw [hmerged]
        simp)
      rfl⟩
